import Mathlib

/-
  Verification development for the mlogs blog backend, authentication and
  session lifecycle subsystem.

  The definitions below are a shallow embedding of the controller in
  src/controller/blogController.ts (register, confirmation, login, logout,
  refreshToken, forgotPassword, resetPassword) and of the account-store
  layer userAuthDbServices.  Persistent storage is modelled as an explicit
  state value threaded through each operation; each operation also returns
  a trace of the side effects (store writes, emails, cookies) it performed,
  in program order.  Timestamps are milliseconds since the epoch, as Int.

  The utility module quicker (password hashing, token codec, expiration
  helper) is not part of the repository sources; those leaves are modelled
  from the spec and are marked as such in their doc comments.
-/

namespace Mlogs

/-- Error taxonomy of the controller, one constructor per distinct
EResponseMessage or message family used by the modelled operations. -/
inductive AuthError
  | validationError
  | entityExists
  | usernameTaken
  | emailFailed
  | invalidTokenOrCode
  | alreadyVerified
  | userIdNotFound
  | invalidCredentials
  | userNotFound
  | accessDenied
  | noTokenFound
  | tokenInvalid
  | tokenExpired
  | replayDetected
  | accountNotVerified
  | timeout
  | passwordSame
  | notFound
  deriving DecidableEq, Repr

/-- Claims carried inside a session token: userId, email, username. -/
structure TokenPayload where
  userId : String
  email : String
  username : String
  deriving DecidableEq, Repr

/-- Modelled from the spec (Token Codec, section 4.2): a signed, expiring
token encoding identity claims.  quicker.generateToken and
quicker.verifyToken are not under src/.  A token records its payload, the
secret it was signed with, its issue time and its time to live; two tokens
issued at different instants are distinct values, as two JWTs with
different iat claims are distinct strings. -/
structure JwtToken where
  payload : TokenPayload
  secret : String
  issuedAt : Int
  ttl : Int
  deriving DecidableEq, Repr

/-- Modelled from the spec: issue(claims, secret, ttl) at the current
instant. -/
def generateToken (p : TokenPayload) (secret : String) (ttl : Int) (now : Int) : JwtToken :=
  ⟨p, secret, now, ttl⟩

/-- Modelled from the spec: verify(token, secret) fails tokenInvalid when
the signing secret does not match and tokenExpired when the current time
is at or after expiresAt, and otherwise yields the claims. -/
def verifyToken (t : JwtToken) (secret : String) (now : Int) : Except AuthError TokenPayload :=
  if t.secret ≠ secret then .error .tokenInvalid
  else if t.issuedAt + t.ttl ≤ now then .error .tokenExpired
  else .ok t.payload

/-- Modelled from the spec (Credential Hasher, section 4.1):
quicker.hashPassword is not under src/.  Deterministic placeholder digest;
what matters to the claims is that verify(p, d) holds exactly when d is
the digest of p, and that the digest is not the plaintext. -/
def hashPassword (plain : String) : String := "bcrypt$" ++ plain

/-- Modelled from the spec: verify(plaintext, digest) is a boolean, never
a failure. -/
def comparePassword (plain digest : String) : Bool := hashPassword plain == digest

/-- Modelled from the spec (Forgot Password, section 4.3):
quicker.generateExpirationTime(minutes) is not under src/; the spec says
expiry = now + 15 minutes.  Minutes converted to milliseconds. -/
def generateExpirationTime (now minutes : Int) : Int := now + minutes * 60000

/-- AccountConfirmation record: verification token, numeric code,
verified flag (default false) and verification timestamp (null until
verified). -/
structure AccountConfirmation where
  token : String
  code : String
  isVerified : Bool
  timestamp : Option Int
  deriving DecidableEq, Repr

/-- Stored user row: scalar fields of the prisma User model that the
authentication flows touch, plus the one-to-one AccountConfirmation. -/
structure User where
  userId : String
  name : String
  email : String
  username : String
  password : String
  lastLoginAt : Option Int
  accountConfirmation : AccountConfirmation
  deriving DecidableEq, Repr

/-- RefreshTokenRecord: upsert key userId, current token, update time. -/
structure RefreshTokenRecord where
  userId : String
  token : JwtToken
  updatedAt : Int
  deriving DecidableEq, Repr

/-- PasswordRecovery record: upsert key userId, nullable reset token and
expiry, last-reset timestamp. -/
structure PasswordRecoveryRecord where
  userId : String
  token : Option String
  expiry : Option Int
  lastResetAt : Option Int
  deriving DecidableEq, Repr

/-- The account store: user rows plus the two per-user keyed tables. -/
structure DbState where
  users : List User
  refreshTokens : List RefreshTokenRecord
  passwordRecovery : List PasswordRecoveryRecord
  deriving DecidableEq, Repr

/-- Shape of user data coming back from a prisma read: a field is none
when the select clause of the query excluded it (or, for the relation,
when it was not included), some when the query returned it. -/
structure UserView where
  userId : Option String
  name : Option String
  email : Option String
  username : Option String
  password : Option String
  accountConfirmation : Option AccountConfirmation
  deriving DecidableEq, Repr

/-- View produced by a user query with no select clause: every scalar
field, the password included; relations are not included. -/
def fullView (u : User) : UserView :=
  ⟨some u.userId, some u.name, some u.email, some u.username, some u.password, none⟩

/-- userAuthDbServices.findUserByEmail: findUnique on email, no select. -/
def findUserByEmail (st : DbState) (email : String) : Option UserView :=
  (st.users.find? (fun u => u.email == email)).map fullView

/-- userAuthDbServices.findUserByUsername: findUnique on username, no
select. -/
def findUserByUsername (st : DbState) (username : String) : Option UserView :=
  (st.users.find? (fun u => u.username == username)).map fullView

/-- Payload handed to createUser. -/
structure CreateUserPayload where
  name : String
  email : String
  username : String
  password : String
  accountConfirmation : AccountConfirmation
  deriving DecidableEq, Repr

/-- View produced by createUser, per its select clause: userId, name,
email, username, accountConfirmation; no password. -/
def createdView (u : User) : UserView :=
  ⟨some u.userId, some u.name, some u.email, some u.username, none, some u.accountConfirmation⟩

/-- userAuthDbServices.createUser: creates the User together with its
AccountConfirmation and returns the selected view.  The database assigns
the fresh row id; it is passed in explicitly here. -/
def createUser (st : DbState) (newId : String) (p : CreateUserPayload) : DbState × UserView :=
  let u : User := ⟨newId, p.name, p.email, p.username, p.password, none, p.accountConfirmation⟩
  ({ st with users := st.users ++ [u] }, createdView u)

/-- View produced by findUserByTokenAndCode, per its select clause:
userId, username, email, accountConfirmation; password explicitly false,
name not selected. -/
def tokenCodeView (u : User) : UserView :=
  ⟨some u.userId, none, some u.email, some u.username, none, some u.accountConfirmation⟩

/-- Predicate of the findUserByTokenAndCode where clause: the
accountConfirmation relation matches the exact token and code pair. -/
def tokenCodeMatch (token code : String) (u : User) : Bool :=
  u.accountConfirmation.token == token && u.accountConfirmation.code == code

/-- userAuthDbServices.findUserByTokenAndCode. -/
def findUserByTokenAndCode (st : DbState) (token code : String) : Option UserView :=
  (st.users.find? (tokenCodeMatch token code)).map tokenCodeView

/-- Row update applied by confirmAccount: on the user with the given id,
set isVerified true and stamp the timestamp; everything else unchanged. -/
def confirmAccountUser (now : Int) (uid : String) (u : User) : User :=
  if u.userId == uid then
    { u with accountConfirmation :=
        { u.accountConfirmation with isVerified := true, timestamp := some now } }
  else u

/-- View produced by prisma update with include accountConfirmation: all
scalar fields, the password included, plus the relation. -/
def includeConfirmationView (u : User) : UserView :=
  ⟨some u.userId, some u.name, some u.email, some u.username, some u.password, some u.accountConfirmation⟩

/-- userAuthDbServices.confirmAccount: update where userId, setting the
confirmation relation verified with a timestamp; returns the updated row
with the relation included, or none when no row matches (prisma would
throw). -/
def confirmAccount (st : DbState) (uid : String) (now : Int) : DbState × Option UserView :=
  let users := st.users.map (confirmAccountUser now uid)
  ({ st with users := users },
   (users.find? (fun u => u.userId == uid)).map includeConfirmationView)

/-- Predicate of the findUserByEmailOrUsername where clause: email or
username equals the key and the accountConfirmation relation is
verified. -/
def emailOrUsernameVerified (key : String) (u : User) : Bool :=
  (u.email == key || u.username == key) && u.accountConfirmation.isVerified

/-- userAuthDbServices.findUserByEmailOrUsername: findFirst over email or
username restricted to verified accounts; no select clause, so the full
scalar row, password included, comes back. -/
def findUserByEmailOrUsername (st : DbState) (key : String) : Option UserView :=
  (st.users.find? (emailOrUsernameVerified key)).map fullView

/-- userAuthDbServices.updateUserLastLogin: stamp lastLoginAt now. -/
def updateUserLastLogin (st : DbState) (uid : String) (now : Int) : DbState :=
  { st with users := st.users.map (fun u =>
      if u.userId == uid then { u with lastLoginAt := some now } else u) }

/-- userAuthDbServices.updateRefreshToken: upsert on the unique userId
key; update sets token and updatedAt, create sets token and userId.  On a
unique-keyed table both legs leave exactly one row for the user, holding
the given token and stamped now. -/
def updateRefreshToken (st : DbState) (uid : String) (tok : JwtToken) (now : Int) : DbState :=
  { st with refreshTokens :=
      ⟨uid, tok, now⟩ :: st.refreshTokens.filter (fun r => !(r.userId == uid)) }

/-- View produced by findUserById, per its select clause: userId, name,
email, username, accountConfirmation; password explicitly false.  The
blog relations also selected there (likedPosts, comments, savedPosts) are
owned by the blog subsystem and are outside the modelled state. -/
def byIdView (u : User) : UserView :=
  ⟨some u.userId, some u.name, some u.email, some u.username, none, some u.accountConfirmation⟩

/-- userAuthDbServices.findUserById. -/
def findUserById (st : DbState) (uid : String) : Option UserView :=
  (st.users.find? (fun u => u.userId == uid)).map byIdView

/-- userAuthDbServices.deleteRefreshToken: delete where userId.  The
behaviour of the store on a missing row is external to the repository;
modelled from the spec: absence is not an error, the delete removes the
row when present. -/
def deleteRefreshToken (st : DbState) (uid : String) : DbState :=
  { st with refreshTokens := st.refreshTokens.filter (fun r => !(r.userId == uid)) }

/-- userAuthDbServices.getRefreshToken: findUnique where userId. -/
def getRefreshToken (st : DbState) (uid : String) : Option RefreshTokenRecord :=
  st.refreshTokens.find? (fun r => r.userId == uid)

/-- userAuthDbServices.findUserByResetToken: findFirst on the
passwordRecovery table where token equals the given string; rows whose
token is null do not match. -/
def findUserByResetToken (st : DbState) (token : String) : Option PasswordRecoveryRecord :=
  st.passwordRecovery.find? (fun r => r.token == some token)

/-- userAuthDbServices.saveResetPasswordCode: upsert on the unique userId
key; update sets token and expiry keeping lastResetAt, create starts a
fresh row. -/
def saveResetPasswordCode (st : DbState) (uid token : String) (expiry : Int) : DbState :=
  match st.passwordRecovery.find? (fun r => r.userId == uid) with
  | some r =>
    { st with passwordRecovery :=
        ⟨uid, some token, some expiry, r.lastResetAt⟩ ::
          st.passwordRecovery.filter (fun q => !(q.userId == uid)) }
  | none =>
    { st with passwordRecovery :=
        ⟨uid, some token, some expiry, none⟩ ::
          st.passwordRecovery.filter (fun q => !(q.userId == uid)) }

/-- userAuthDbServices.updateUserPasswordbyId: store the new digest. -/
def updateUserPasswordbyId (st : DbState) (uid password : String) : DbState :=
  { st with users := st.users.map (fun u =>
      if u.userId == uid then { u with password := password } else u) }

/-- userAuthDbServices.getExpiryTime: findFirst where userId selecting
only expiry; outer none when no row, inner none when the column is
null. -/
def getExpiryTime (st : DbState) (uid : String) : Option (Option Int) :=
  (st.passwordRecovery.find? (fun r => r.userId == uid)).map (fun r => r.expiry)

/-- userAuthDbServices.getPasswordbyUserId: findUnique where userId
selecting only the password; the single dedicated hash fetch. -/
def getPasswordbyUserId (st : DbState) (uid : String) : Option String :=
  (st.users.find? (fun u => u.userId == uid)).map (fun u => u.password)

/-- userAuthDbServices.clearResetTokenAndExpiry: update where userId
setting token and expiry to null, keeping lastResetAt. -/
def clearResetTokenAndExpiry (st : DbState) (uid : String) : DbState :=
  { st with passwordRecovery := st.passwordRecovery.map (fun r =>
      if r.userId == uid then { r with token := none, expiry := none } else r) }

/-- Side effects an operation can perform, in program order: store
writes, outbound emails, cookie headers, and the two refresh guards the
spec singles out (token verification, store lookup). -/
inductive Effect
  | sentVerificationEmail
  | createdUser
  | confirmedAccount
  | sentConfirmedEmail
  | updatedLastLogin
  | upsertedRefreshToken
  | setAccessCookie
  | setRefreshCookie
  | deletedRefreshToken
  | clearedCookies
  | calledVerifyToken
  | calledGetRefreshToken
  | issuedAccessToken
  | savedResetCode
  | sentResetLinkEmail
  | updatedPassword
  | clearedResetTokenAndExpiry
  | sentPasswordChangeEmail
  deriving DecidableEq, Repr

/-- Outcome of one controller operation: the typed result, the store
state after the operation, and the trace of effects performed. -/
structure OpOut (α : Type) where
  result : Except AuthError α
  state : DbState
  effects : List Effect
  deriving Repr

/-- Boolean error test on a result. -/
def isError {α : Type} : Except AuthError α → Bool
  | .error _ => true
  | .ok _ => false

/-- Configuration consumed by the controller. -/
structure AppConfig where
  accessTokenSecret : String
  refreshTokenSecret : String
  accessTokenExpiry : Int
  refreshTokenExpiry : Int
  deriving DecidableEq, Repr

/-- Parsed register request body. -/
structure RegisterInput where
  name : String
  email : String
  username : String
  password : String
  deriving DecidableEq, Repr

/-- Controller register.  valid stands for registerUserSchema.safeParse
succeeding (validation internals are out of scope per the spec); newToken
and newCode are the generated confirmation token and OTP; newId is the
row id the database assigns; emailOk is whether sendVerificationEmail
succeeds.  The email is awaited before createUser runs, so an email
failure aborts with no write. -/
def register (st : DbState) (inp : RegisterInput) (valid : Bool)
    (newToken newCode newId : String) (emailOk : Bool) : OpOut UserView :=
  if valid = false then ⟨.error .validationError, st, []⟩
  else match findUserByEmail st inp.email with
  | some _ => ⟨.error .entityExists, st, []⟩
  | none =>
    match findUserByUsername st inp.username with
    | some _ => ⟨.error .usernameTaken, st, []⟩
    | none =>
      let hashedPassword := hashPassword inp.password
      let payload : CreateUserPayload :=
        ⟨inp.name, inp.email, inp.username, hashedPassword, ⟨newToken, newCode, false, none⟩⟩
      if emailOk = false then ⟨.error .emailFailed, st, []⟩
      else
        let created := createUser st newId payload
        ⟨.ok created.2, created.1, [.sentVerificationEmail, .createdUser]⟩

/-- Controller confirmation: look up the exact token and code pair, fail
when missing or already verified, otherwise confirm the account and send
the confirmed email. -/
def confirmation (st : DbState) (token code : String) (now : Int) (emailOk : Bool) :
    OpOut UserView :=
  match findUserByTokenAndCode st token code with
  | none => ⟨.error .invalidTokenOrCode, st, []⟩
  | some v =>
    if (v.accountConfirmation.map (fun a => a.isVerified)).getD false = true then
      ⟨.error .alreadyVerified, st, []⟩
    else
      let uid := v.userId.getD ""
      if uid = "" then ⟨.error .userIdNotFound, st, []⟩
      else
        let confirmed := confirmAccount st uid now
        match confirmed.2 with
        | some updatedUser =>
          if emailOk = false then ⟨.error .emailFailed, confirmed.1, [.confirmedAccount]⟩
          else ⟨.ok updatedUser, confirmed.1, [.confirmedAccount, .sentConfirmedEmail]⟩
        | none => ⟨.error .notFound, confirmed.1, [.confirmedAccount]⟩

/-- Data of a successful login: the two issued tokens and the password
free user payload of the response. -/
structure LoginOut where
  accessToken : JwtToken
  refreshToken : JwtToken
  userId : String
  username : String
  email : String
  name : String
  deriving DecidableEq, Repr

/-- Controller login: verified-account lookup by email or username, then
password check, then token issuance, last-login stamp and refresh-token
upsert, then both cookies. -/
def login (cfg : AppConfig) (st : DbState) (key pw : String) (valid : Bool) (now : Int) :
    OpOut LoginOut :=
  if valid = false then ⟨.error .validationError, st, []⟩
  else match findUserByEmailOrUsername st key with
  | none => ⟨.error .invalidCredentials, st, []⟩
  | some v =>
    if comparePassword pw (v.password.getD "") = false then
      ⟨.error .invalidCredentials, st, []⟩
    else
      let p : TokenPayload := ⟨v.userId.getD "", v.email.getD "", v.username.getD ""⟩
      let accessToken := generateToken p cfg.accessTokenSecret cfg.accessTokenExpiry now
      let refreshTok := generateToken p cfg.refreshTokenSecret cfg.refreshTokenExpiry now
      let st1 := updateUserLastLogin st p.userId now
      let st2 := updateRefreshToken st1 p.userId refreshTok now
      ⟨.ok ⟨accessToken, refreshTok, p.userId, p.username, p.email, v.name.getD ""⟩, st2,
        [.updatedLastLogin, .upsertedRefreshToken, .setAccessCookie, .setRefreshCookie]⟩

/-- Controller logout: the store delete runs only when the refresh-token
cookie is present; the cookies are always cleared and the operation
always succeeds. -/
def logout (st : DbState) (authUserId : String) (refreshCookie : Option JwtToken) :
    OpOut Unit :=
  match refreshCookie with
  | some _ =>
    ⟨.ok (), deleteRefreshToken st authUserId, [.deletedRefreshToken, .clearedCookies]⟩
  | none => ⟨.ok (), st, [.clearedCookies]⟩

/-- Controller refreshToken: reject when an access-token cookie is still
present, then when no refresh-token cookie exists; verify the refresh
token under the refresh secret, compare it against the stored record for
its subject, and on success issue a new access token only. -/
def refreshTokenOp (cfg : AppConfig) (st : DbState)
    (accessCookie refreshCookie : Option JwtToken) (now : Int) : OpOut JwtToken :=
  match accessCookie with
  | some _ => ⟨.error .accessDenied, st, []⟩
  | none =>
    match refreshCookie with
    | none => ⟨.error .noTokenFound, st, []⟩
    | some rt =>
      match verifyToken rt cfg.refreshTokenSecret now with
      | .error e => ⟨.error e, st, [.calledVerifyToken]⟩
      | .ok p =>
        match getRefreshToken st p.userId with
        | none => ⟨.error .replayDetected, st, [.calledVerifyToken, .calledGetRefreshToken]⟩
        | some dbRefreshToken =>
          if dbRefreshToken.token = rt then
            let newAccessToken :=
              generateToken p cfg.accessTokenSecret cfg.accessTokenExpiry now
            ⟨.ok newAccessToken, st,
              [.calledVerifyToken, .calledGetRefreshToken, .issuedAccessToken, .setAccessCookie]⟩
          else
            ⟨.error .replayDetected, st, [.calledVerifyToken, .calledGetRefreshToken]⟩

/-- Controller forgotPassword: verified-account lookup, then reset token
generation, expiry fifteen minutes out, recovery upsert, reset email. -/
def forgotPassword (st : DbState) (key : String) (valid : Bool) (newToken : String)
    (now : Int) (emailOk : Bool) : OpOut Unit :=
  if valid = false then ⟨.error .validationError, st, []⟩
  else match findUserByEmailOrUsername st key with
  | none => ⟨.error .userNotFound, st, []⟩
  | some v =>
    let uid := v.userId.getD ""
    let expiryTime := generateExpirationTime now 15
    let st1 := saveResetPasswordCode st uid newToken expiryTime
    if emailOk = false then ⟨.error .emailFailed, st1, [.savedResetCode]⟩
    else ⟨.ok (), st1, [.savedResetCode, .sentResetLinkEmail]⟩

/-- Controller resetPassword: recovery lookup by token, user lookup,
verified check, recorded-expiry check, the fifteen minute window on the
minute difference between now and the stored expiry, same-password check,
then password update, token and expiry clearing, and the notice email. -/
def resetPassword (st : DbState) (resetTok newPassword : String) (valid : Bool)
    (now : Int) (emailOk : Bool) : OpOut Unit :=
  if valid = false then ⟨.error .validationError, st, []⟩
  else match findUserByResetToken st resetTok with
  | none => ⟨.error .tokenExpired, st, []⟩
  | some tokenData =>
    match findUserById st tokenData.userId with
    | none => ⟨.error .userIdNotFound, st, []⟩
    | some user =>
      if (user.accountConfirmation.map (fun a => a.isVerified)).getD false = false then
        ⟨.error .accountNotVerified, st, []⟩
      else
        let uid := user.userId.getD ""
        match getExpiryTime st uid with
        | none => ⟨.error .validationError, st, []⟩
        | some none => ⟨.error .validationError, st, []⟩
        | some (some expiry) =>
          let minutesDifference := Int.tdiv (now - expiry) 60000
          if minutesDifference ≥ 15 then ⟨.error .timeout, st, []⟩
          else
            match getPasswordbyUserId st uid with
            | none => ⟨.error .validationError, st, []⟩
            | some password =>
              if comparePassword newPassword password = true then
                ⟨.error .passwordSame, st, []⟩
              else
                let hashedNewPassword := hashPassword newPassword
                let st1 := updateUserPasswordbyId st uid hashedNewPassword
                let st2 := clearResetTokenAndExpiry st1 uid
                if emailOk = false then
                  ⟨.error .emailFailed, st2, [.updatedPassword, .clearedResetTokenAndExpiry]⟩
                else
                  ⟨.ok (), st2,
                    [.updatedPassword, .clearedResetTokenAndExpiry, .sentPasswordChangeEmail]⟩

/-! Concrete fixtures used by witnesses and counterexamples. -/

/-- Demo configuration. -/
def cfg0 : AppConfig := ⟨"access-secret", "refresh-secret", 3600000, 86400000⟩

/-- Demo token claims. -/
def demoPayload : TokenPayload := ⟨"u1", "ana@x.com", "ana1"⟩

/-- A refresh token issued at time 0, superseded later. -/
def staleToken : JwtToken := ⟨demoPayload, "refresh-secret", 0, 86400000⟩

/-- The refresh token issued at time 1000 and currently stored. -/
def freshToken : JwtToken := ⟨demoPayload, "refresh-secret", 1000, 86400000⟩

/-- An access token issued at time 1000. -/
def accessTok0 : JwtToken := ⟨demoPayload, "access-secret", 1000, 3600000⟩

/-- A verified confirmation record. -/
def demoConfirmation : AccountConfirmation := ⟨"ctok", "1234", true, some 0⟩

/-- A verified demo user whose password digest is the hash of pw1. -/
def demoUser : User := ⟨"u1", "Ana", "ana@x.com", "ana1", hashPassword "pw1", none, demoConfirmation⟩

/-- Store holding the demo user and the freshly stored refresh token. -/
def demoRefreshState : DbState := ⟨[demoUser], [⟨"u1", freshToken, 1000⟩], []⟩

/-- Store holding only the demo user. -/
def demoLoginState : DbState := ⟨[demoUser], [], []⟩

/-- Empty store. -/
def emptyState : DbState := ⟨[], [], []⟩

/-- Demo register request body. -/
def demoRegInput : RegisterInput := ⟨"Ana", "ana@x.com", "ana1", "pw1"⟩

/-- View the demo registration returns. -/
def demoCreatedView : UserView :=
  ⟨some "u9", some "Ana", some "ana@x.com", some "ana1", none,
    some ⟨"t1", "1234", false, none⟩⟩

/-! Helper lemmas about the keyed tables. -/

/-- Looking a record up right after the keyed upsert yields the upserted
record. -/
theorem getRefreshToken_update (st : DbState) (uid : String) (tok : JwtToken) (now : Int) :
    getRefreshToken (updateRefreshToken st uid tok now) uid = some ⟨uid, tok, now⟩ := by
  simp [getRefreshToken, updateRefreshToken]

/-- Looking a record up right after the keyed delete yields nothing. -/
theorem getRefreshToken_delete (st : DbState) (uid : String) :
    getRefreshToken (deleteRefreshToken st uid) uid = none := by
  unfold getRefreshToken deleteRefreshToken
  apply List.find?_eq_none.mpr
  intro x hx hpx
  have hmem := List.mem_filter.mp hx
  simpa [hpx] using hmem.2

/-- The keyed upsert leaves exactly one refresh record for the user. -/
theorem refreshTokens_count_one (st : DbState) (uid : String) (tok : JwtToken) (now : Int) :
    ((updateRefreshToken st uid tok now).refreshTokens.countP
      (fun r => r.userId == uid)) = 1 := by
  unfold updateRefreshToken
  simp [List.countP_cons, List.countP_filter]

/-- The expiry stored by the recovery upsert is read back by the expiry
fetch. -/
theorem getExpiryTime_save (st : DbState) (uid token : String) (expiry : Int) :
    getExpiryTime (saveResetPasswordCode st uid token expiry) uid = some (some expiry) := by
  unfold getExpiryTime saveResetPasswordCode
  cases h : st.passwordRecovery.find? (fun r => r.userId == uid) <;> simp

/-! Claim theorems. -/

/-- C1: for every refresh request whose refresh token verifies under the
refresh secret, if the stored refresh record for the token subject is
absent or holds a different token, the operation fails replayDetected
and issues no new access token. -/
theorem refresh_replay_detected (cfg : AppConfig) (st : DbState) (rt : JwtToken)
    (now : Int) (p : TokenPayload)
    (hverify : verifyToken rt cfg.refreshTokenSecret now = .ok p)
    (hstale : ∀ r, getRefreshToken st p.userId = some r → r.token ≠ rt) :
    (refreshTokenOp cfg st none (some rt) now).result = .error .replayDetected ∧
    Effect.issuedAccessToken ∉ (refreshTokenOp cfg st none (some rt) now).effects ∧
    Effect.setAccessCookie ∉ (refreshTokenOp cfg st none (some rt) now).effects := by
  simp only [refreshTokenOp]
  rw [hverify]
  dsimp only
  cases hg : getRefreshToken st p.userId with
  | none =>
    exact ⟨rfl, by simp, by simp⟩
  | some r =>
    have hne : ¬(r.token = rt) := hstale r hg
    simp [hne]

/-- Witness for C1: a token signed with the refresh secret at time 0 is
presented at time 2000 while the store holds the token issued at time
1000; the refresh fails replayDetected and issues nothing. -/
theorem refresh_replay_detected_witness :
    (refreshTokenOp cfg0 demoRefreshState none (some staleToken) 2000).result
      = .error .replayDetected ∧
    Effect.issuedAccessToken ∉
      (refreshTokenOp cfg0 demoRefreshState none (some staleToken) 2000).effects ∧
    Effect.setAccessCookie ∉
      (refreshTokenOp cfg0 demoRefreshState none (some staleToken) 2000).effects :=
  refresh_replay_detected cfg0 demoRefreshState staleToken 2000 demoPayload (by rfl)
    (by
      intro r hr
      have hval : getRefreshToken demoRefreshState demoPayload.userId
          = some ⟨"u1", freshToken, 1000⟩ := by decide
      rw [hval] at hr
      injection hr with h
      subst h
      decide)

/-- C7: a refresh request with an access-token cookie fails accessDenied
with an empty trace, so neither token verification nor any store lookup
has happened; with neither cookie it fails noTokenFound. -/
theorem refresh_precondition_errors (cfg : AppConfig) (st : DbState)
    (accessCookie refreshCookie : Option JwtToken) (now : Int) :
    (∀ a, accessCookie = some a →
      (refreshTokenOp cfg st accessCookie refreshCookie now).result = .error .accessDenied ∧
      (refreshTokenOp cfg st accessCookie refreshCookie now).effects = []) ∧
    (accessCookie = none → refreshCookie = none →
      (refreshTokenOp cfg st accessCookie refreshCookie now).result = .error .noTokenFound) := by
  constructor
  · intro a ha
    subst ha
    exact ⟨rfl, rfl⟩
  · intro h1 h2
    subst h1
    subst h2
    exact rfl

/-- Witness for C7 at concrete cookies and store. -/
theorem refresh_precondition_errors_witness :
    ((refreshTokenOp cfg0 demoRefreshState (some accessTok0) (some staleToken) 2000).result
        = .error .accessDenied ∧
      (refreshTokenOp cfg0 demoRefreshState (some accessTok0) (some staleToken) 2000).effects
        = []) ∧
    (refreshTokenOp cfg0 demoRefreshState none none 2000).result = .error .noTokenFound :=
  ⟨(refresh_precondition_errors cfg0 demoRefreshState (some accessTok0) (some staleToken)
      2000).1 accessTok0 rfl,
    (refresh_precondition_errors cfg0 demoRefreshState none none 2000).2 rfl rfl⟩

/-- C6 counterexample: the store holds a refresh record for the user, yet
a logout request without a refresh-token cookie succeeds and leaves the
record in place, so the operation does not delete the record whenever one
is present. -/
theorem logout_record_survives_cx :
    getRefreshToken demoRefreshState "u1" = some ⟨"u1", freshToken, 1000⟩ ∧
    (logout demoRefreshState "u1" none).result = .ok () ∧
    getRefreshToken (logout demoRefreshState "u1" none).state "u1"
      = some ⟨"u1", freshToken, 1000⟩ := by
  refine ⟨by decide, rfl, by decide⟩

/-- C6 amended: logout always succeeds and always clears both cookies;
the stored refresh record is deleted exactly on the presence of the
refresh-token cookie, and with no cookie the store is untouched, so a
second logout (whose cookies were already cleared) is tolerated. -/
theorem logout_behaviour (st : DbState) (uid : String) (refreshCookie : Option JwtToken) :
    (logout st uid refreshCookie).result = .ok () ∧
    Effect.clearedCookies ∈ (logout st uid refreshCookie).effects ∧
    (refreshCookie.isSome = true →
      getRefreshToken (logout st uid refreshCookie).state uid = none) ∧
    (refreshCookie = none → (logout st uid refreshCookie).state = st) := by
  cases refreshCookie with
  | none => exact ⟨rfl, by simp [logout], by simp, fun _ => rfl⟩
  | some t =>
    refine ⟨rfl, by simp [logout], fun _ => ?_, by simp⟩
    exact getRefreshToken_delete st uid

/-- Witness for C6 amended: logging out with the refresh cookie present
removes the stored record; a repeat logout without cookies is a success
that leaves the store alone. -/
theorem logout_behaviour_witness :
    ((logout demoRefreshState "u1" (some freshToken)).result = .ok () ∧
      getRefreshToken (logout demoRefreshState "u1" (some freshToken)).state "u1" = none) ∧
    ((logout emptyState "u1" none).result = .ok () ∧
      (logout emptyState "u1" none).state = emptyState) :=
  ⟨⟨(logout_behaviour demoRefreshState "u1" (some freshToken)).1,
      (logout_behaviour demoRefreshState "u1" (some freshToken)).2.2.1 rfl⟩,
    ⟨(logout_behaviour emptyState "u1" none).1,
      (logout_behaviour emptyState "u1" none).2.2.2 rfl⟩⟩

/-- C9 counterexample: the account-store reads with no select clause
return the full row, the stored password digest included.  The login
lookup findUserByEmailOrUsername and the registration existence check
findUserByEmail both expose the digest, although neither is the dedicated
hash fetch getPasswordbyUserId. -/
theorem password_exposed_cx :
    (findUserByEmailOrUsername demoLoginState "ana1").map UserView.password
      = some (some (hashPassword "pw1")) ∧
    (findUserByEmail demoLoginState "ana@x.com").map UserView.password
      = some (some (hashPassword "pw1")) := by
  exact ⟨by decide, by decide⟩

/-- C9 amended: the reads whose select clause excludes the password
(findUserById, findUserByTokenAndCode, createUser) never return it, and
the register response payload never contains it; but the selectless reads
findUserByEmail, findUserByUsername and findUserByEmailOrUsername do
return the stored digest, beside the dedicated hash fetch. -/
theorem password_excluded_views (st : DbState) (uid token code newId : String)
    (p : CreateUserPayload) (inp : RegisterInput) (valid emailOk : Bool)
    (newToken newCode : String) :
    ((findUserById st uid).elim True (fun v => v.password = none)) ∧
    ((findUserByTokenAndCode st token code).elim True (fun v => v.password = none)) ∧
    ((createUser st newId p).2.password = none) ∧
    (∀ v, (register st inp valid newToken newCode newId emailOk).result = .ok v →
      v.password = none) := by
  refine ⟨?_, ?_, rfl, ?_⟩
  · unfold findUserById
    cases st.users.find? (fun u => u.userId == uid) <;> simp [byIdView]
  · unfold findUserByTokenAndCode
    cases st.users.find? (tokenCodeMatch token code) <;> simp [tokenCodeView]
  · intro v hv
    cases valid with
    | false => simp [register] at hv
    | true =>
      cases hmail : findUserByEmail st inp.email with
      | some u => simp [register, hmail] at hv
      | none =>
        cases huser : findUserByUsername st inp.username with
        | some u => simp [register, hmail, huser] at hv
        | none =>
          cases emailOk with
          | false => simp [register, hmail, huser] at hv
          | true =>
            simp only [register, hmail, huser, Bool.true_eq_false, if_false,
              reduceCtorEq, reduceIte, Except.ok.injEq] at hv
            subst hv
            rfl

/-- Witness for C9 amended: concrete id lookup and a concrete successful
registration, both without a password in the returned data. -/
theorem password_excluded_views_witness :
    ((findUserById demoLoginState "u1").elim True (fun v => v.password = none)) ∧
    demoCreatedView.password = none :=
  ⟨(password_excluded_views demoLoginState "u1" "ctok" "1234" "u9"
      ⟨"Ana", "ana@x.com", "ana1", hashPassword "pw1", ⟨"t1", "1234", false, none⟩⟩
      demoRegInput true true "t1" "1234").1,
    (password_excluded_views emptyState "u1" "ctok" "1234" "u9"
      ⟨"Ana", "ana@x.com", "ana1", hashPassword "pw1", ⟨"t1", "1234", false, none⟩⟩
      demoRegInput true true "t1" "1234").2.2.2 demoCreatedView (by rfl)⟩

/-- C3: with a failing verification email, registration errors, the store
is untouched and no user row was created; and whenever a user row was
created, the email had succeeded and was sent strictly before the
create. -/
theorem register_email_gates_persist (st : DbState) (inp : RegisterInput) (valid : Bool)
    (newToken newCode newId : String) :
    ((register st inp valid newToken newCode newId false).state = st ∧
      isError (register st inp valid newToken newCode newId false).result = true ∧
      Effect.createdUser ∉ (register st inp valid newToken newCode newId false).effects) ∧
    (∀ emailOk,
      Effect.createdUser ∈ (register st inp valid newToken newCode newId emailOk).effects →
      emailOk = true ∧
      (register st inp valid newToken newCode newId emailOk).effects
        = [Effect.sentVerificationEmail, Effect.createdUser]) := by
  constructor
  · cases valid with
    | false => exact ⟨rfl, rfl, by simp [register, isError]⟩
    | true =>
      cases hmail : findUserByEmail st inp.email with
      | some u => simp [register, hmail, isError]
      | none =>
        cases huser : findUserByUsername st inp.username with
        | some u => simp [register, hmail, huser, isError]
        | none => simp [register, hmail, huser, isError]
  · intro emailOk hmem
    cases valid with
    | false => simp [register] at hmem
    | true =>
      cases hmail : findUserByEmail st inp.email with
      | some u => simp [register, hmail] at hmem
      | none =>
        cases huser : findUserByUsername st inp.username with
        | some u => simp [register, hmail, huser] at hmem
        | none =>
          cases emailOk with
          | false => simp [register, hmail, huser] at hmem
          | true => exact ⟨rfl, by simp [register, hmail, huser]⟩

/-- Witness for C3: registering into the empty store with a failing email
changes nothing and creates nothing, while the successful run creates the
row with the email first in the trace. -/
theorem register_email_gates_persist_witness :
    ((register emptyState demoRegInput true "t1" "1234" "u9" false).state = emptyState ∧
      isError (register emptyState demoRegInput true "t1" "1234" "u9" false).result = true ∧
      Effect.createdUser ∉
        (register emptyState demoRegInput true "t1" "1234" "u9" false).effects) ∧
    ((register emptyState demoRegInput true "t1" "1234" "u9" true).effects
      = [Effect.sentVerificationEmail, Effect.createdUser]) :=
  ⟨(register_email_gates_persist emptyState demoRegInput true "t1" "1234" "u9").1,
    ((register_email_gates_persist emptyState demoRegInput true "t1" "1234" "u9").2 true
      (by decide)).2⟩

/-- C4: a login against a key no account matches, a login whose every
matching account is unverified, and a login with the wrong password for a
matched verified account all surface the same invalidCredentials
error. -/
theorem login_enumeration_resistant (cfg : AppConfig) (st : DbState) (key pw : String)
    (now : Int) :
    ((∀ u ∈ st.users, ¬(u.email = key ∨ u.username = key)) →
      (login cfg st key pw true now).result = .error .invalidCredentials) ∧
    ((∀ u ∈ st.users, (u.email = key ∨ u.username = key) →
        u.accountConfirmation.isVerified = false) →
      (login cfg st key pw true now).result = .error .invalidCredentials) ∧
    (∀ v, findUserByEmailOrUsername st key = some v →
      comparePassword pw (v.password.getD "") = false →
      (login cfg st key pw true now).result = .error .invalidCredentials) := by
  refine ⟨?_, ?_, ?_⟩
  · intro h
    have hnone : findUserByEmailOrUsername st key = none := by
      unfold findUserByEmailOrUsername
      have : st.users.find? (emailOrUsernameVerified key) = none := by
        apply List.find?_eq_none.mpr
        intro u hu
        simp only [emailOrUsernameVerified, Bool.and_eq_true, Bool.or_eq_true, beq_iff_eq]
        rintro ⟨hor, _⟩
        exact h u hu hor
      rw [this]
      rfl
    simp [login, hnone]
  · intro h
    have hnone : findUserByEmailOrUsername st key = none := by
      unfold findUserByEmailOrUsername
      have : st.users.find? (emailOrUsernameVerified key) = none := by
        apply List.find?_eq_none.mpr
        intro u hu
        simp only [emailOrUsernameVerified, Bool.and_eq_true, Bool.or_eq_true, beq_iff_eq]
        rintro ⟨hor, hver⟩
        rw [h u hu hor] at hver
        cases hver
      rw [this]
      rfl
    simp [login, hnone]
  · intro v hv hcmp
    simp [login, hv, hcmp]

/-- Witness for C4: unknown key on the empty store, an unverified account
matched by key, and a wrong password against the verified demo user all
yield invalidCredentials. -/
theorem login_enumeration_resistant_witness :
    (login cfg0 emptyState "ghost" "pw1" true 0).result = .error .invalidCredentials ∧
    (login cfg0 ⟨[⟨"u2", "Bob", "bob@x.com", "bob1", hashPassword "pw2", none,
        ⟨"btok", "9999", false, none⟩⟩], [], []⟩ "bob1" "pw2" true 0).result
      = .error .invalidCredentials ∧
    (login cfg0 demoLoginState "ana1" "wrong" true 0).result
      = .error .invalidCredentials :=
  ⟨(login_enumeration_resistant cfg0 emptyState "ghost" "pw1" 0).1 (by decide),
    (login_enumeration_resistant cfg0 ⟨[⟨"u2", "Bob", "bob@x.com", "bob1",
        hashPassword "pw2", none, ⟨"btok", "9999", false, none⟩⟩], [], []⟩
        "bob1" "pw2" 0).2.1 (by decide),
    (login_enumeration_resistant cfg0 demoLoginState "ana1" "wrong" 0).2.2
      (fullView demoUser) (by decide) (by decide)⟩

/-- Every resetPassword run is one of: a typed failure other than the
email failure, returning the store untouched with no effect; the email
failure after the two writes; or full success after the two writes and
the notice email. -/
theorem resetPassword_shape (st : DbState) (tok pw : String) (valid : Bool)
    (now : Int) (emailOk : Bool) :
    (∃ e, e ≠ AuthError.emailFailed ∧
      resetPassword st tok pw valid now emailOk = ⟨.error e, st, []⟩) ∨
    (∃ st2, resetPassword st tok pw valid now emailOk
        = ⟨.error .emailFailed, st2,
            [.updatedPassword, .clearedResetTokenAndExpiry]⟩) ∨
    (∃ st2, resetPassword st tok pw valid now emailOk
        = ⟨.ok (), st2,
            [.updatedPassword, .clearedResetTokenAndExpiry, .sentPasswordChangeEmail]⟩) := by
  cases valid with
  | false => exact Or.inl ⟨.validationError, by decide, rfl⟩
  | true =>
    cases hfind : findUserByResetToken st tok with
    | none => exact Or.inl ⟨.tokenExpired, by decide, by simp [resetPassword, hfind]⟩
    | some tokenData =>
      cases huser : findUserById st tokenData.userId with
      | none => exact Or.inl ⟨.userIdNotFound, by decide, by simp [resetPassword, hfind, huser]⟩
      | some user =>
        cases hver : (user.accountConfirmation.map (fun a => a.isVerified)).getD false with
        | false =>
          exact Or.inl ⟨.accountNotVerified, by decide,
            by simp [resetPassword, hfind, huser, hver]⟩
        | true =>
          cases hexp : getExpiryTime st (user.userId.getD "") with
          | none =>
            exact Or.inl ⟨.validationError, by decide,
              by simp [resetPassword, hfind, huser, hver, hexp]⟩
          | some oe =>
            cases oe with
            | none =>
              exact Or.inl ⟨.validationError, by decide,
                by simp [resetPassword, hfind, huser, hver, hexp]⟩
            | some expiry =>
              by_cases hto : Int.tdiv (now - expiry) 60000 ≥ 15
              · exact Or.inl ⟨.timeout, by decide,
                  by simp [resetPassword, hfind, huser, hver, hexp, hto]⟩
              · cases hpw : getPasswordbyUserId st (user.userId.getD "") with
                | none =>
                  exact Or.inl ⟨.validationError, by decide,
                    by simp [resetPassword, hfind, huser, hver, hexp, hto, hpw]⟩
                | some password =>
                  cases hsame : comparePassword pw password with
                  | true =>
                    exact Or.inl ⟨.passwordSame, by decide,
                      by simp [resetPassword, hfind, huser, hver, hexp, hto, hpw, hsame]⟩
                  | false =>
                    cases emailOk with
                    | false =>
                      refine Or.inr (Or.inl
                        ⟨clearResetTokenAndExpiry
                          (updateUserPasswordbyId st (user.userId.getD "") (hashPassword pw))
                          (user.userId.getD ""), ?_⟩)
                      simp [resetPassword, hfind, huser, hver, hexp, hto, hpw, hsame]
                    | true =>
                      refine Or.inr (Or.inr
                        ⟨clearResetTokenAndExpiry
                          (updateUserPasswordbyId st (user.userId.getD "") (hashPassword pw))
                          (user.userId.getD ""), ?_⟩)
                      simp [resetPassword, hfind, huser, hver, hexp, hto, hpw, hsame]

/-- C10: any resetPassword failure on a checked branch (so any typed
error other than the email failure) leaves the store exactly as it was,
hence the password digest and the recovery token and expiry; the clearing
write occurs only immediately after the password write; success performs
the password write, then the clearing, then the email. -/
theorem reset_failure_atomicity (st : DbState) (resetTok newPassword : String)
    (valid : Bool) (now : Int) (emailOk : Bool) :
    (∀ e, (resetPassword st resetTok newPassword valid now emailOk).result = .error e →
      e ≠ .emailFailed →
      (resetPassword st resetTok newPassword valid now emailOk).state = st) ∧
    (Effect.clearedResetTokenAndExpiry ∈
        (resetPassword st resetTok newPassword valid now emailOk).effects →
      (resetPassword st resetTok newPassword valid now emailOk).effects.take 2
        = [Effect.updatedPassword, Effect.clearedResetTokenAndExpiry]) ∧
    ((resetPassword st resetTok newPassword valid now emailOk).result = .ok () →
      (resetPassword st resetTok newPassword valid now emailOk).effects
        = [Effect.updatedPassword, Effect.clearedResetTokenAndExpiry,
            Effect.sentPasswordChangeEmail]) := by
  rcases resetPassword_shape st resetTok newPassword valid now emailOk with
    ⟨e, hne, heq⟩ | ⟨st2, heq⟩ | ⟨st2, heq⟩ <;> rw [heq]
  · refine ⟨?_, ?_, ?_⟩
    · intro e2 he2 _
      rfl
    · intro hmem
      simp at hmem
    · intro hok
      simp at hok
  · refine ⟨?_, ?_, ?_⟩
    · intro e2 he2 hne2
      injection he2 with h
      exact absurd h.symm hne2
    · intro _
      rfl
    · intro hok
      simp at hok
  · refine ⟨?_, ?_, ?_⟩
    · intro e2 he2 _
      simp at he2
    · intro _
      rfl
    · intro _
      rfl

/-- Witness for C10: an unknown reset token fails and demonstrably leaves
the empty store unchanged. -/
theorem reset_failure_atomicity_witness :
    (resetPassword emptyState "nope" "pw2" true 0 true).state = emptyState :=
  (reset_failure_atomicity emptyState "nope" "pw2" true 0 true).1 .tokenExpired
    (by rfl) (by decide)

/-- C2: once a reset request has matched a recovery record, found its
verified user and read a recorded expiry, it fails timeout exactly when
the whole minutes from the stored expiry to now reach 15, and otherwise
passes the expiry check; and the expiry forgotPassword stores is now plus
fifteen minutes in milliseconds. -/
theorem reset_expiry_window :
    (∀ st tok pw now emailOk td u e,
      findUserByResetToken st tok = some td →
      findUserById st td.userId = some u →
      ((u.accountConfirmation.map (fun a => a.isVerified)).getD false) = true →
      getExpiryTime st (u.userId.getD "") = some (some e) →
      ((resetPassword st tok pw true now emailOk).result = .error .timeout ↔
        15 ≤ Int.tdiv (now - e) 60000)) ∧
    (∀ st key newTok now emailOk v,
      findUserByEmailOrUsername st key = some v →
      getExpiryTime (forgotPassword st key true newTok now emailOk).state (v.userId.getD "")
        = some (some (now + 15 * 60000))) := by
  constructor
  · intro st tok pw now emailOk td u e hfind huser hver hexp
    by_cases hto : Int.tdiv (now - e) 60000 ≥ 15
    · simp [resetPassword, hfind, huser, hver, hexp, hto]
    · cases hpw : getPasswordbyUserId st (u.userId.getD "") with
      | none => simp [resetPassword, hfind, huser, hver, hexp, hto, hpw]
      | some password =>
        cases hsame : comparePassword pw password with
        | true => simp [resetPassword, hfind, huser, hver, hexp, hto, hpw, hsame]
        | false =>
          cases emailOk with
          | false => simp [resetPassword, hfind, huser, hver, hexp, hto, hpw, hsame]
          | true => simp [resetPassword, hfind, huser, hver, hexp, hto, hpw, hsame]
  · intro st key newTok now emailOk v hv
    have hsave := getExpiryTime_save st (v.userId.getD "") newTok (generateExpirationTime now 15)
    cases emailOk with
    | false => simpa [forgotPassword, hv, generateExpirationTime] using hsave
    | true => simpa [forgotPassword, hv, generateExpirationTime] using hsave

/-- Store for the C2 witness: the demo user with a recovery record whose
token is rtok and whose stored expiry is the instant 900000. -/
def demoResetState : DbState :=
  ⟨[demoUser], [], [⟨"u1", some "rtok", some 900000, none⟩]⟩

/-- Witness for C2: exactly fifteen minutes past the stored expiry the
reset fails timeout, and a forgot-password run at time 0 stores the
expiry 900000. -/
theorem reset_expiry_window_witness :
    (resetPassword demoResetState "rtok" "pw2" true 1800000 true).result
      = .error .timeout ∧
    getExpiryTime (forgotPassword demoLoginState "ana1" true "rtok" 0 true).state "u1"
      = some (some 900000) := by
  constructor
  · exact (reset_expiry_window.1 demoResetState "rtok" "pw2" 1800000 true
      ⟨"u1", some "rtok", some 900000, none⟩ (byIdView demoUser) 900000
      (by decide) (by decide) (by decide) (by decide)).mpr (by decide)
  · have h := reset_expiry_window.2 demoLoginState "ana1" "rtok" 0 true
      (fullView demoUser) (by decide)
    simpa using h

/-- Successful logins issue the refresh token from the refresh secret and
current instant and leave the store after the last-login stamp and the
keyed refresh upsert. -/
theorem login_ok_shape (cfg : AppConfig) (st : DbState) (key pw : String) (now : Int)
    (out : LoginOut) (h : (login cfg st key pw true now).result = .ok out) :
    out.refreshToken = generateToken ⟨out.userId, out.email, out.username⟩
        cfg.refreshTokenSecret cfg.refreshTokenExpiry now ∧
    (login cfg st key pw true now).state
      = updateRefreshToken (updateUserLastLogin st out.userId now) out.userId
          out.refreshToken now := by
  cases hfind : findUserByEmailOrUsername st key with
  | none => simp [login, hfind] at h
  | some v =>
    cases hcmp : comparePassword pw (v.password.getD "") with
    | false => simp [login, hfind, hcmp] at h
    | true =>
      simp only [login, hfind, hcmp, Bool.true_eq_false, if_false, reduceCtorEq,
        reduceIte, Except.ok.injEq] at h
      subst h
      exact ⟨rfl, by simp [login, hfind, hcmp]⟩

/-- C5: after a successful login the stored refresh record of the user is
exactly the refresh token just issued stamped now, and it is the only
record for that user; a later successful login for the same user leaves
that later refresh token stored instead, and tokens issued at different
instants differ. -/
theorem login_single_refresh_slot (cfg : AppConfig) (st : DbState) (key pw : String)
    (now : Int) (out : LoginOut)
    (h : (login cfg st key pw true now).result = .ok out) :
    getRefreshToken (login cfg st key pw true now).state out.userId
      = some ⟨out.userId, out.refreshToken, now⟩ ∧
    ((login cfg st key pw true now).state.refreshTokens.countP
        (fun r => r.userId == out.userId)) = 1 ∧
    (∀ key2 pw2 now2 out2,
      (login cfg (login cfg st key pw true now).state key2 pw2 true now2).result = .ok out2 →
      out2.userId = out.userId →
      getRefreshToken
          (login cfg (login cfg st key pw true now).state key2 pw2 true now2).state
          out.userId
        = some ⟨out.userId, out2.refreshToken, now2⟩ ∧
      (now2 ≠ now → out2.refreshToken ≠ out.refreshToken)) := by
  obtain ⟨htok, hstate⟩ := login_ok_shape cfg st key pw now out h
  refine ⟨?_, ?_, ?_⟩
  · rw [hstate]
    exact getRefreshToken_update _ _ _ _
  · rw [hstate]
    exact refreshTokens_count_one _ _ _ _
  · intro key2 pw2 now2 out2 h2 hid
    obtain ⟨htok2, hstate2⟩ := login_ok_shape cfg _ key2 pw2 now2 out2 h2
    constructor
    · rw [hstate2, hid]
      exact getRefreshToken_update _ _ _ _
    · intro hne hcontra
      rw [htok, htok2] at hcontra
      exact hne (congrArg JwtToken.issuedAt hcontra)

/-- Witness for C5: the demo user logs in at time 1000 and the stored
record holds exactly the issued refresh token; a second login at time
2000 overwrites it with the distinct later token. -/
theorem login_single_refresh_slot_witness :
    getRefreshToken (login cfg0 demoLoginState "ana1" "pw1" true 1000).state "u1"
      = some ⟨"u1", freshToken, 1000⟩ ∧
    getRefreshToken
        (login cfg0 (login cfg0 demoLoginState "ana1" "pw1" true 1000).state
          "ana1" "pw1" true 2000).state "u1"
      = some ⟨"u1", ⟨demoPayload, "refresh-secret", 2000, 86400000⟩, 2000⟩ ∧
    (⟨demoPayload, "refresh-secret", 2000, 86400000⟩ : JwtToken) ≠ freshToken := by
  have H := login_single_refresh_slot cfg0 demoLoginState "ana1" "pw1" 1000
    ⟨accessTok0, freshToken, "u1", "ana1", "ana@x.com", "Ana"⟩ (by rfl)
  have H2 := H.2.2 "ana1" "pw1" 2000
    ⟨⟨demoPayload, "access-secret", 2000, 3600000⟩,
      ⟨demoPayload, "refresh-secret", 2000, 86400000⟩,
      "u1", "ana1", "ana@x.com", "Ana"⟩ (by rfl) rfl
  exact ⟨H.1, H2.1, H2.2 (by decide)⟩

/-- The per-row confirmation update never changes the confirmation token
or code, so the token-and-code search commutes with it. -/
theorem find?_tokenCode_confirm (st : DbState) (token code uid : String) (now : Int) :
    (st.users.map (confirmAccountUser now uid)).find? (tokenCodeMatch token code)
      = (st.users.find? (tokenCodeMatch token code)).map (confirmAccountUser now uid) := by
  rw [List.find?_map]
  have hpres : tokenCodeMatch token code ∘ confirmAccountUser now uid
      = tokenCodeMatch token code := by
    funext u
    simp only [Function.comp, tokenCodeMatch, confirmAccountUser]
    by_cases h : (u.userId == uid) = true <;> simp [h]
  rw [hpres]

/-- C8: confirmation fails invalidTokenOrCode whenever no account matches
the exact token and code pair (wrong token and wrong code are the same
error value), fails alreadyVerified when the matched account is verified,
and a resubmission of the pair after a successful confirmation yields
alreadyVerified. -/
theorem confirmation_lifecycle (st : DbState) (token code : String) (now : Int)
    (emailOk : Bool) :
    (findUserByTokenAndCode st token code = none →
      (confirmation st token code now emailOk).result = .error .invalidTokenOrCode) ∧
    (∀ v, findUserByTokenAndCode st token code = some v →
      (v.accountConfirmation.map (fun a => a.isVerified)).getD false = true →
      (confirmation st token code now emailOk).result = .error .alreadyVerified) ∧
    (∀ out, (confirmation st token code now emailOk).result = .ok out →
      ∀ now2 emailOk2,
        (confirmation (confirmation st token code now emailOk).state token code
          now2 emailOk2).result = .error .alreadyVerified) := by
  refine ⟨?_, ?_, ?_⟩
  · intro hnone
    simp [confirmation, hnone]
  · intro v hv hver
    simp [confirmation, hv, hver]
  · intro out hok now2 emailOk2
    cases hfind : findUserByTokenAndCode st token code with
    | none => simp [confirmation, hfind] at hok
    | some v =>
      cases hver : (v.accountConfirmation.map (fun a => a.isVerified)).getD false with
      | true => simp [confirmation, hfind, hver] at hok
      | false =>
        by_cases huid : v.userId.getD "" = ""
        · simp [confirmation, hfind, hver, huid] at hok
        · obtain ⟨u0, hu0, hvv⟩ :
              ∃ u0, st.users.find? (tokenCodeMatch token code) = some u0 ∧
                v = tokenCodeView u0 := by
            unfold findUserByTokenAndCode at hfind
            cases hf : st.users.find? (tokenCodeMatch token code) with
            | none => rw [hf] at hfind; cases hfind
            | some u0 =>
              rw [hf] at hfind
              injection hfind with h2
              exact ⟨u0, rfl, h2.symm⟩
          have huid_eq : v.userId.getD "" = u0.userId := by rw [hvv]; rfl
          have hstate : (confirmation st token code now emailOk).state
              = (confirmAccount st (v.userId.getD "") now).1 := by
            simp only [confirmation, hfind, hver, huid, Bool.false_eq_true, if_false,
              reduceIte]
            cases hc : (confirmAccount st (v.userId.getD "") now).2 with
            | none => simp [hc]
            | some w => cases emailOk <;> simp [hc]
          have hfind2 : findUserByTokenAndCode
              (confirmAccount st (v.userId.getD "") now).1 token code
              = some (tokenCodeView (confirmAccountUser now (v.userId.getD "") u0)) := by
            unfold findUserByTokenAndCode confirmAccount
            rw [find?_tokenCode_confirm]
            rw [hu0]
            rfl
          have hfu0 : (confirmAccountUser now (v.userId.getD "") u0).accountConfirmation.isVerified
              = true := by
            unfold confirmAccountUser
            have : (u0.userId == v.userId.getD "") = true := by
              rw [huid_eq]
              exact beq_self_eq_true u0.userId
            rw [this]
            simp
          rw [hstate]
          simp [confirmation, hfind2, tokenCodeView, hfu0]

/-- Store for the C8 witness: one pending user with confirmation token
vtok and code 5678. -/
def pendingState : DbState :=
  ⟨[⟨"u3", "Cay", "cay@x.com", "cay1", hashPassword "pw3", none,
      ⟨"vtok", "5678", false, none⟩⟩], [], []⟩

/-- Witness for C8: a wrong pair fails invalidTokenOrCode, the already
verified demo user fails alreadyVerified, and resubmitting the valid pair
right after the successful confirmation fails alreadyVerified. -/
theorem confirmation_lifecycle_witness :
    (confirmation pendingState "nope" "0000" 50 true).result
      = .error .invalidTokenOrCode ∧
    (confirmation demoLoginState "ctok" "1234" 50 true).result
      = .error .alreadyVerified ∧
    (confirmation (confirmation pendingState "vtok" "5678" 50 true).state
        "vtok" "5678" 60 true).result = .error .alreadyVerified := by
  refine ⟨?_, ?_, ?_⟩
  · exact (confirmation_lifecycle pendingState "nope" "0000" 50 true).1 (by decide)
  · exact (confirmation_lifecycle demoLoginState "ctok" "1234" 50 true).2.1
      (tokenCodeView demoUser) (by decide) (by decide)
  · exact (confirmation_lifecycle pendingState "vtok" "5678" 50 true).2.2
      ⟨some "u3", some "Cay", some "cay@x.com", some "cay1",
        some (hashPassword "pw3"), some ⟨"vtok", "5678", true, some 50⟩⟩
      (by rfl) 60 true

end Mlogs
